import Mathlib

/-!
Shallow embedding of the n8n MCP server (src/index.ts): the tool dispatch
layer, argument validators, request construction and error translation.
JavaScript runtime values arriving as tool arguments or HTTP response
bodies are modelled by the inductive `JValue` (JSON values); absent object
properties are modelled by `Option` at the lookup site, mirroring
JavaScript `undefined` for missing keys.
-/

namespace N8n

/-- JSON-compatible JavaScript values (numbers restricted to integers,
which suffices for every value this server manipulates). -/
inductive JValue where
  | null : JValue
  | bool : Bool → JValue
  | num : Int → JValue
  | str : String → JValue
  | arr : List JValue → JValue
  | obj : List (String × JValue) → JValue

/-- Raw tool-call arguments: `Record<string, unknown>` from the request. -/
abbrev RawArgs := List (String × JValue)

/-- Property lookup `args.k`: `none` models JavaScript `undefined`. -/
def getField (args : RawArgs) (k : String) : Option JValue :=
  (List.find? (fun p => p.1 == k) args).map Prod.snd

/-- JavaScript truthiness of a value: `null`, `false`, `0` and `""` are
falsy; every array and object (including empty ones) is truthy. -/
def truthy : JValue → Bool
  | .null => false
  | .bool b => b
  | .num n => n != 0
  | .str s => s != ""
  | .arr _ => true
  | .obj _ => true

/-- The JavaScript `typeof` operator. Note `typeof null` is `"object"`,
and arrays are also `"object"`. -/
def jsTypeof : JValue → String
  | .null => "object"
  | .bool _ => "boolean"
  | .num _ => "number"
  | .str _ => "string"
  | .arr _ => "object"
  | .obj _ => "object"

/-- JavaScript `v || fallback`. -/
def jsOr (v fallback : JValue) : JValue :=
  if truthy v then v else fallback

mutual

/-- JavaScript `String(v)`: string coercion as used by template literals.
Arrays stringify as their comma-join; plain objects as
`[object Object]`. -/
def jsString : JValue → String
  | .null => "null"
  | .bool true => "true"
  | .bool false => "false"
  | .num n => toString n
  | .str s => s
  | .arr xs => jsJoinComma xs
  | .obj _ => "[object Object]"

/-- JavaScript `Array.prototype.join(",")`: elements are string-coerced,
except that `null` elements become the empty string. -/
def jsJoinComma : List JValue → String
  | [] => ""
  | [.null] => ""
  | [v] => jsString v
  | .null :: v :: vs => "," ++ jsJoinComma (v :: vs)
  | v :: w :: vs => jsString v ++ "," ++ jsJoinComma (w :: vs)

end

/-- JavaScript `String.prototype.includes(pat)` on the character list. -/
def stringIncludes (s pat : String) : Bool :=
  go s.data pat.data
where
  go : List Char → List Char → Bool
    | [], p => p.isEmpty
    | c :: cs, p => List.isPrefixOf p (c :: cs) || go cs p

/-- Hexadecimal digit for control-character escapes. -/
def hexDigit (n : Nat) : Char :=
  if n < 10 then Char.ofNat (48 + n) else Char.ofNat (87 + n)

/-- Escaping of one character inside a JSON string literal, as
`JSON.stringify` performs it. -/
def jsonEscapeChar (c : Char) : String :=
  if c = '"' then "\\\""
  else if c = '\\' then "\\\\"
  else if c = '\n' then "\\n"
  else if c = '\r' then "\\r"
  else if c = '\t' then "\\t"
  else if c = '\x08' then "\\b"
  else if c = '\x0c' then "\\f"
  else if c.toNat < 32 then
    "\\u00" ++ String.singleton (hexDigit (c.toNat / 16))
            ++ String.singleton (hexDigit (c.toNat % 16))
  else String.singleton c

/-- A JSON string literal with its surrounding quotes. -/
def jsonQuote (s : String) : String :=
  "\"" ++ String.join (s.data.map jsonEscapeChar) ++ "\""

/-- Two spaces of indentation per depth level, as in
`JSON.stringify(v, null, 2)`. -/
def indentOf (d : Nat) : String :=
  String.join (List.replicate d "  ")

mutual

/-- `JSON.stringify(v, null, 2)` at nesting depth `d`: pretty-printed
JSON with two-space indentation, empty containers printed inline. -/
def jsonStringifyAt (d : Nat) : JValue → String
  | .null => "null"
  | .bool true => "true"
  | .bool false => "false"
  | .num n => toString n
  | .str s => jsonQuote s
  | .arr [] => "[]"
  | .arr (x :: xs) =>
      "[\n" ++ String.intercalate ",\n" (jsonStringifyArr (d + 1) (x :: xs))
        ++ "\n" ++ indentOf d ++ "]"
  | .obj [] => "\x7b\x7d"
  | .obj (f :: fs) =>
      "\x7b\n" ++ String.intercalate ",\n" (jsonStringifyObj (d + 1) (f :: fs))
        ++ "\n" ++ indentOf d ++ "\x7d"

/-- Array elements rendered at depth `d`, each on its own indented line. -/
def jsonStringifyArr (d : Nat) : List JValue → List String
  | [] => []
  | v :: vs => (indentOf d ++ jsonStringifyAt d v) :: jsonStringifyArr d vs

/-- Object entries rendered at depth `d`, each on its own indented line. -/
def jsonStringifyObj (d : Nat) : List (String × JValue) → List String
  | [] => []
  | (k, v) :: fs =>
      (indentOf d ++ jsonQuote k ++ ": " ++ jsonStringifyAt d v)
        :: jsonStringifyObj d fs

end

/-- `JSON.stringify(response.data, null, 2)` as used by every handler. -/
def jsonStringify (v : JValue) : String := jsonStringifyAt 0 v

/-! Protocol and HTTP model. -/

/-- The MCP error codes this server uses. -/
inductive ErrorCode where
  | InvalidParams : ErrorCode
  | MethodNotFound : ErrorCode
  | InternalError : ErrorCode

/-- `McpError`: a protocol error with code and message. -/
structure McpError where
  code : ErrorCode
  message : String

/-- HTTP method of an outbound request. -/
inductive Method where
  | GET : Method
  | POST : Method
  | PATCH : Method
  | DELETE : Method

/-- An outbound HTTP request issued through the axios instance: method,
path relative to the base URL, query parameters, and JSON body (`none`
when no body is passed, as for GET/DELETE and the activate posts). -/
structure HttpRequest where
  method : Method
  path : String
  params : List (String × JValue)
  body : Option JValue

/-- A non-raising HTTP response (status < 500 under the configured
`validateStatus` policy): status code and parsed body. -/
structure HttpResponse where
  status : Nat
  data : JValue

/-- An `AxiosError` raised by the adapter (status ≥ 500 or network
failure): the error's own message and the attached response, when any. -/
structure AdapterError where
  message : String
  response : Option HttpResponse

/-- The HTTP client adapter: maps each request to a response or raises an
`AdapterError`. Quantifying theorems over this function models arbitrary
downstream behaviour. -/
def Adapter := HttpRequest → Except AdapterError HttpResponse

/-- One `{type: "text", text}` content block (the `type` tag is the
constant `"text"` everywhere in this server and is left implicit). -/
structure TextContent where
  text : String

/-- The protocol success envelope `{content: [...]}`. -/
structure CallResult where
  content : List TextContent

/-- An exception in flight inside the dispatcher's try block: an
`McpError` (validators, unknown tool), an `AxiosError` from the adapter,
or any other JavaScript error (e.g. a `TypeError`). -/
inductive Thrown where
  | mcp : McpError → Thrown
  | axios : AdapterError → Thrown
  | js : String → Thrown

/-- What escapes the dispatcher to the protocol layer after the catch:
an `McpError`, or a non-axios non-MCP exception propagated unchanged. -/
inductive DispatchError where
  | mcp : McpError → DispatchError
  | js : String → DispatchError

/-! Argument validators (src/index.ts lines 72-116). -/

/-- The error thrown for a missing, non-string or empty `id`. -/
def workflowIdError : McpError :=
  { code := .InvalidParams
    message := "Workflow ID is required and must be a string" }

/-- Validated arguments for the id-only operations. -/
structure WorkflowIdArg where
  id : String

/-- `validateWorkflowId`: the guard `!args.id || typeof args.id !==
'string'` accepts exactly the present, non-empty strings (`!""` is true
in JavaScript, so the empty string is rejected too). -/
def validateWorkflowId (args : RawArgs) : Except McpError WorkflowIdArg :=
  match getField args "id" with
  | some (.str s) => if s = "" then .error workflowIdError else .ok { id := s }
  | _ => .error workflowIdError

/-- Validated create arguments. `nodes` and `tags` are always arrays and
`settings` a non-null object after validation, but `connections` keeps
any value of JavaScript typeof `"object"`, which includes `null`. -/
structure CreateWorkflowArgs where
  name : String
  nodes : JValue
  connections : JValue
  active : Bool
  tags : JValue
  settings : JValue

/-- The error thrown for a missing, non-string or empty `name`. -/
def workflowNameError : McpError :=
  { code := .InvalidParams
    message := "Workflow name is required and must be a string" }

/-- `validateCreateWorkflow`: requires a truthy string `name`; defaults
`nodes`/`tags` to `[]` unless arrays, `connections` to an empty object
unless `typeof` is `"object"`, `active` to `false` unless boolean, and
`settings` to the object with `executionOrder: "v1"` unless the input is
a non-null `typeof`-object. -/
def validateCreateWorkflow (args : RawArgs) : Except McpError CreateWorkflowArgs :=
  match getField args "name" with
  | some (.str s) =>
    if s = "" then .error workflowNameError
    else
      .ok {
        name := s
        nodes := match getField args "nodes" with
                 | some (.arr xs) => .arr xs
                 | _ => .arr []
        connections := match getField args "connections" with
                       | some v => if jsTypeof v = "object" then v else .obj []
                       | none => .obj []
        active := match getField args "active" with
                  | some (.bool b) => b
                  | _ => false
        tags := match getField args "tags" with
                | some (.arr xs) => .arr xs
                | _ => .arr []
        settings := match getField args "settings" with
                    | some .null => .obj [("executionOrder", .str "v1")]
                    | some v =>
                      if jsTypeof v = "object" then v
                      else .obj [("executionOrder", .str "v1")]
                    | none => .obj [("executionOrder", .str "v1")] }
  | _ => .error workflowNameError

/-- The ternary `typeof x === 'string' ? x : undefined`. -/
def keepString : Option JValue → Option JValue
  | some (.str t) => some (.str t)
  | _ => none

/-- The ternary `Array.isArray(x) ? x : undefined`. -/
def keepArray : Option JValue → Option JValue
  | some (.arr xs) => some (.arr xs)
  | _ => none

/-- The ternary `typeof x === 'boolean' ? x : undefined`. -/
def keepBool : Option JValue → Option JValue
  | some (.bool b) => some (.bool b)
  | _ => none

/-- The ternary `typeof x === 'object' ? x : undefined`: since
`typeof null === "object"` in JavaScript, this keeps `null` (and
arrays), not only plain objects. -/
def keepTypeofObject : Option JValue → Option JValue
  | some v => if jsTypeof v = "object" then some v else none
  | none => none

/-- Validated update arguments: `none` models a field explicitly set to
`undefined` by the validator, which `JSON.stringify` later omits from
the PATCH body. -/
structure UpdateWorkflowArgs where
  id : String
  name : Option JValue
  nodes : Option JValue
  connections : Option JValue
  active : Option JValue
  tags : Option JValue

/-- `validateUpdateWorkflow`: requires a truthy string `id`; keeps `name`
when a string, `nodes`/`tags` when arrays, `active` when a boolean, and
`connections` when `typeof` is `"object"` — which keeps `null` and
arrays as well, since `typeof null === "object"`. -/
def validateUpdateWorkflow (args : RawArgs) : Except McpError UpdateWorkflowArgs :=
  match getField args "id" with
  | some (.str s) =>
    if s = "" then .error workflowIdError
    else
      .ok {
        id := s
        name := keepString (getField args "name")
        nodes := keepArray (getField args "nodes")
        connections := keepTypeofObject (getField args "connections")
        active := keepBool (getField args "active")
        tags := keepArray (getField args "tags") }
  | _ => .error workflowIdError

/-- Validated execute arguments. -/
structure ExecuteWorkflowArgs where
  id : String
  data : JValue

/-- `validateExecuteWorkflow`: requires a truthy string `id`; keeps
`data` whenever `typeof` is `"object"` (so `null` and arrays are kept
too) and defaults it to `{}` otherwise. -/
def validateExecuteWorkflow (args : RawArgs) : Except McpError ExecuteWorkflowArgs :=
  match getField args "id" with
  | some (.str s) =>
    if s = "" then .error workflowIdError
    else
      .ok {
        id := s
        data := match getField args "data" with
                | some v => if jsTypeof v = "object" then v else .obj []
                | none => .obj [] }
  | _ => .error workflowIdError

/-! Handlers (src/index.ts lines 359-531). Each handler issues one HTTP
request through the adapter, records it, and shapes the response; its
try/catch only logs and rethrows, so errors flow to the dispatcher. -/

/-- Result of a handler: the shaped `CallResult` or a thrown exception,
together with the list of HTTP requests actually issued. -/
def HandlerOut : Type := Except Thrown CallResult × List HttpRequest

/-- The diagnostic returned when a list response body is an HTML page. -/
def htmlDiagnostic : String :=
  "Error: Received HTML instead of JSON. Please check that N8N_API_URL points to the API endpoint (should end with /api/v1)"

/-- The guard `typeof response.data === 'string' &&
response.data.includes('<!DOCTYPE html>')` of the list handler. -/
def isHtmlBody : JValue → Bool
  | .str s => stringIncludes s "<!DOCTYPE html>"
  | _ => false

/-- The success envelope with one text block. -/
def textResult (s : String) : CallResult :=
  { content := [{ text := s }] }

/-- Query-parameter construction of `handleListWorkflows`: `active` is
copied whenever present (`args.active !== undefined`); `if (args.tags)`
joins a truthy `tags` with commas — a truthy non-array has no `join`
method and raises a `TypeError`. -/
def listParams (args : RawArgs) : Except Thrown (List (String × JValue)) :=
  let activeParams : List (String × JValue) :=
    match getField args "active" with
    | some v => [("active", v)]
    | none => []
  match getField args "tags" with
  | some v =>
    if truthy v then
      match v with
      | .arr xs => .ok (activeParams ++ [("tags", .str (jsJoinComma xs))])
      | _ => .error (.js "args.tags.join is not a function")
    else .ok activeParams
  | none => .ok activeParams

/-- The GET `/workflows` request with its query parameters. -/
def listRequest (ps : List (String × JValue)) : HttpRequest :=
  { method := .GET, path := "/workflows", params := ps, body := none }

/-- `handleListWorkflows`: GET `/workflows` with the constructed query
parameters; an HTML string body yields the diagnostic block, any other
body is pretty-printed as JSON. -/
def handleListWorkflows (ad : Adapter) (args : RawArgs) : HandlerOut :=
  match listParams args with
  | .error e => (.error e, [])
  | .ok ps =>
    match ad (listRequest ps) with
    | .error e => (.error (.axios e), [listRequest ps])
    | .ok resp =>
      if isHtmlBody resp.data then
        (.ok (textResult htmlDiagnostic), [listRequest ps])
      else
        (.ok (textResult (jsonStringify resp.data)), [listRequest ps])

/-- The GET `/workflows/{id}` request. -/
def getRequest (a : WorkflowIdArg) : HttpRequest :=
  { method := .GET, path := "/workflows/" ++ a.id, params := [], body := none }

/-- `handleGetWorkflow`: GET `/workflows/{id}`. -/
def handleGetWorkflow (ad : Adapter) (a : WorkflowIdArg) : HandlerOut :=
  match ad (getRequest a) with
  | .error e => (.error (.axios e), [getRequest a])
  | .ok resp => (.ok (textResult (jsonStringify resp.data)), [getRequest a])

/-- The create payload `{name, nodes, connections, settings}` — the
validated `active` and `tags` are not part of it. -/
def createPayload (a : CreateWorkflowArgs) : JValue :=
  .obj [
    ("name", .str a.name),
    ("nodes", jsOr a.nodes (.arr [])),
    ("connections", jsOr a.connections (.obj [])),
    ("settings", jsOr a.settings (.obj [("executionOrder", .str "v1")]))]

/-- The POST `/workflows` request. -/
def createRequest (a : CreateWorkflowArgs) : HttpRequest :=
  { method := .POST, path := "/workflows", params := []
    body := some (createPayload a) }

/-- `handleCreateWorkflow`: POST `/workflows` with the create payload. -/
def handleCreateWorkflow (ad : Adapter) (a : CreateWorkflowArgs) : HandlerOut :=
  match ad (createRequest a) with
  | .error e => (.error (.axios e), [createRequest a])
  | .ok resp => (.ok (textResult (jsonStringify resp.data)), [createRequest a])

/-- One serialized field of the PATCH body: a field the validator set to
`undefined` is dropped by `JSON.stringify`. -/
def optPair (k : String) : Option JValue → List (String × JValue)
  | some v => [(k, v)]
  | none => []

/-- The PATCH body `{...data}` of the update handler after JSON
serialization, in the insertion order of `validateUpdateWorkflow`. -/
def updateBody (a : UpdateWorkflowArgs) : JValue :=
  .obj (optPair "name" a.name ++ optPair "nodes" a.nodes
    ++ optPair "connections" a.connections ++ optPair "active" a.active
    ++ optPair "tags" a.tags)

/-- The PATCH `/workflows/{id}` request. -/
def updateRequest (a : UpdateWorkflowArgs) : HttpRequest :=
  { method := .PATCH, path := "/workflows/" ++ a.id, params := []
    body := some (updateBody a) }

/-- `handleUpdateWorkflow`: PATCH `/workflows/{id}` with every validated
field except `id`, absent fields omitted. -/
def handleUpdateWorkflow (ad : Adapter) (a : UpdateWorkflowArgs) : HandlerOut :=
  match ad (updateRequest a) with
  | .error e => (.error (.axios e), [updateRequest a])
  | .ok resp => (.ok (textResult (jsonStringify resp.data)), [updateRequest a])

/-- The DELETE `/workflows/{id}` request. -/
def deleteRequest (a : WorkflowIdArg) : HttpRequest :=
  { method := .DELETE, path := "/workflows/" ++ a.id, params := [], body := none }

/-- `handleDeleteWorkflow`: DELETE `/workflows/{id}`; a falsy response
body yields the human-readable fallback text instead of JSON. -/
def handleDeleteWorkflow (ad : Adapter) (a : WorkflowIdArg) : HandlerOut :=
  match ad (deleteRequest a) with
  | .error e => (.error (.axios e), [deleteRequest a])
  | .ok resp =>
    if truthy resp.data then
      (.ok (textResult (jsonStringify resp.data)), [deleteRequest a])
    else
      (.ok (textResult ("Workflow " ++ a.id ++ " deleted successfully")),
       [deleteRequest a])

/-- The POST `/workflows/{id}/activate` request, no body. -/
def activateRequest (a : WorkflowIdArg) : HttpRequest :=
  { method := .POST, path := "/workflows/" ++ a.id ++ "/activate"
    params := [], body := none }

/-- `handleActivateWorkflow`: POST `/workflows/{id}/activate`. -/
def handleActivateWorkflow (ad : Adapter) (a : WorkflowIdArg) : HandlerOut :=
  match ad (activateRequest a) with
  | .error e => (.error (.axios e), [activateRequest a])
  | .ok resp => (.ok (textResult (jsonStringify resp.data)), [activateRequest a])

/-- The POST `/workflows/{id}/deactivate` request, no body. -/
def deactivateRequest (a : WorkflowIdArg) : HttpRequest :=
  { method := .POST, path := "/workflows/" ++ a.id ++ "/deactivate"
    params := [], body := none }

/-- `handleDeactivateWorkflow`: POST `/workflows/{id}/deactivate`. -/
def handleDeactivateWorkflow (ad : Adapter) (a : WorkflowIdArg) : HandlerOut :=
  match ad (deactivateRequest a) with
  | .error e => (.error (.axios e), [deactivateRequest a])
  | .ok resp => (.ok (textResult (jsonStringify resp.data)), [deactivateRequest a])

/-- The POST `/workflows/{id}/execute` request with body
`args.data || {}`. -/
def executeRequest (a : ExecuteWorkflowArgs) : HttpRequest :=
  { method := .POST, path := "/workflows/" ++ a.id ++ "/execute"
    params := [], body := some (jsOr a.data (.obj [])) }

/-- `handleExecuteWorkflow`: POST `/workflows/{id}/execute`. -/
def handleExecuteWorkflow (ad : Adapter) (a : ExecuteWorkflowArgs) : HandlerOut :=
  match ad (executeRequest a) with
  | .error e => (.error (.axios e), [executeRequest a])
  | .ok resp => (.ok (textResult (jsonStringify resp.data)), [executeRequest a])

/-! Dispatcher (src/index.ts lines 321-356). -/

/-- A validator failure short-circuits (it throws before the handler
runs, so no HTTP request is issued). -/
def bindVal {α : Type} (v : Except McpError α) (h : α → HandlerOut) : HandlerOut :=
  match v with
  | .error e => (.error (.mcp e), [])
  | .ok a => h a

/-- The try block of the `CallToolRequestSchema` handler: the switch on
the tool name, with validator and handler exceptions in flight. -/
def tryBlock (ad : Adapter) (name : String) (args : RawArgs) : HandlerOut :=
  match name with
  | "list_workflows" => handleListWorkflows ad args
  | "get_workflow" => bindVal (validateWorkflowId args) (handleGetWorkflow ad)
  | "create_workflow" => bindVal (validateCreateWorkflow args) (handleCreateWorkflow ad)
  | "update_workflow" => bindVal (validateUpdateWorkflow args) (handleUpdateWorkflow ad)
  | "delete_workflow" => bindVal (validateWorkflowId args) (handleDeleteWorkflow ad)
  | "activate_workflow" => bindVal (validateWorkflowId args) (handleActivateWorkflow ad)
  | "deactivate_workflow" => bindVal (validateWorkflowId args) (handleDeactivateWorkflow ad)
  | "execute_workflow" => bindVal (validateExecuteWorkflow args) (handleExecuteWorkflow ad)
  | _ => (.error (.mcp { code := .MethodNotFound
                         message := "Unknown tool: " ++ name }), [])

/-- `error.response?.data?.message || error.message`: the remote message
from the error body when present and truthy, else the axios message. -/
def axiosMessage (e : AdapterError) : String :=
  match e.response with
  | some r =>
    match r.data with
    | .obj fields =>
      match getField fields "message" with
      | some v => if truthy v then jsString v else e.message
      | none => e.message
    | _ => e.message
  | none => e.message

/-- The catch clause: an `AxiosError` is rethrown as
`McpError(InternalError, "n8n API error: " + message)`; every other
exception is rethrown unchanged. -/
def dispatch (ad : Adapter) (name : String) (args : RawArgs) :
    Except DispatchError CallResult × List HttpRequest :=
  match tryBlock ad name args with
  | (.ok r, calls) => (.ok r, calls)
  | (.error (.axios e), calls) =>
      (.error (.mcp { code := .InternalError
                      message := "n8n API error: " ++ axiosMessage e }), calls)
  | (.error (.mcp e), calls) => (.error (.mcp e), calls)
  | (.error (.js m), calls) => (.error (.js m), calls)

/-- The protocol-level outcome of one call. -/
def dispatchResult (ad : Adapter) (name : String) (args : RawArgs) :
    Except DispatchError CallResult :=
  (dispatch ad name args).1

/-- The HTTP requests issued while serving one call. -/
def dispatchCalls (ad : Adapter) (name : String) (args : RawArgs) :
    List HttpRequest :=
  (dispatch ad name args).2

/-- The eight tool names of the catalog (src/index.ts lines 157-319). -/
def catalogNames : List String :=
  ["list_workflows", "get_workflow", "create_workflow", "update_workflow",
   "delete_workflow", "activate_workflow", "deactivate_workflow",
   "execute_workflow"]

/-- The operations that validate a workflow `id` before dispatching. -/
def idRequiredOps : List String :=
  ["get_workflow", "update_workflow", "delete_workflow",
   "activate_workflow", "deactivate_workflow", "execute_workflow"]

/-- Whether an argument value is a JavaScript string. -/
def isStringVal : Option JValue → Bool
  | some (.str _) => true
  | _ => false

/-- An adapter double that always answers 200 with an empty object. -/
def okAdapter : Adapter := fun _ => .ok { status := 200, data := .obj [] }

/-- An adapter double answering a fixed response. -/
def constAdapter (resp : HttpResponse) : Adapter := fun _ => .ok resp

/-- The 500 error carrying body `{message: "rate limited"}`. -/
def rateLimitedError : AdapterError :=
  { message := "Request failed with status code 500"
    response := some { status := 500
                       data := .obj [("message", .str "rate limited")] } }

/-- An adapter double that always raises the rate-limited 500. -/
def rateLimitedAdapter : Adapter := fun _ => .error rateLimitedError

/-- The optional create fields recognized by `validateCreateWorkflow`. -/
def createOtherKeys : List String :=
  ["nodes", "connections", "active", "tags", "settings"]

/-- The fully defaulted create request: body
`{name, nodes: [], connections: {}, settings: {executionOrder: "v1"}}`,
with no `active` and no `tags` key. -/
def createDefaultRequest (n : String) : HttpRequest :=
  { method := .POST, path := "/workflows", params := []
    body := some (.obj [
      ("name", .str n),
      ("nodes", .arr []),
      ("connections", .obj []),
      ("settings", .obj [("executionOrder", .str "v1")])]) }


/-! Helper lemmas used by several claim theorems. -/

/-- Property lookup steps over the head binding. -/
theorem getField_cons (k : String) (v : JValue) (l : RawArgs) (k2 : String) :
    getField ((k, v) :: l) k2 = if k == k2 then some v else getField l k2 := by
  unfold getField
  cases h : k == k2 <;> simp [List.find?, h]

/-- A key bound nowhere in the argument list looks up to `none`. -/
theorem getField_eq_none {l : RawArgs} {k : String}
    (h : List.all l (fun p => !(p.1 == k)) = true) : getField l k = none := by
  induction l with
  | nil => rfl
  | cons p l ih =>
    obtain ⟨k1, v1⟩ := p
    simp only [List.all_cons, Bool.and_eq_true, Bool.not_eq_true'] at h
    rw [getField_cons, h.1]
    simpa using ih (by simpa using h.2)

/-- The issued requests of a call are those of the try block: the catch
clause only reshapes errors. -/
theorem dispatch_snd (ad : Adapter) (name : String) (args : RawArgs) :
    (dispatch ad name args).2 = (tryBlock ad name args).2 := by
  unfold dispatch
  rcases h : tryBlock ad name args with ⟨res, calls⟩
  rcases res with e | r
  · rcases e with e | e | e <;> rfl
  · rfl

/-- The protocol result of a call, as the catch clause shapes it from
whatever the try block threw or returned. -/
theorem dispatch_fst (ad : Adapter) (name : String) (args : RawArgs) :
    dispatchResult ad name args =
      match (tryBlock ad name args).1 with
      | .ok r => .ok r
      | .error (.mcp e) => .error (.mcp e)
      | .error (.axios e) =>
          .error (.mcp { code := .InternalError
                         message := "n8n API error: " ++ axiosMessage e })
      | .error (.js m) => .error (.js m) := by
  unfold dispatchResult dispatch
  rcases h : tryBlock ad name args with ⟨res, calls⟩
  rcases res with e | r
  · rcases e with e | e | e <;> rfl
  · rfl

theorem tryBlock_update (ad : Adapter) (args : RawArgs) :
    tryBlock ad "update_workflow" args
      = bindVal (validateUpdateWorkflow args) (handleUpdateWorkflow ad) := rfl

theorem handleUpdateWorkflow_calls (ad : Adapter) (a : UpdateWorkflowArgs) :
    (handleUpdateWorkflow ad a).2 = [updateRequest a] := by
  unfold handleUpdateWorkflow
  cases ad (updateRequest a) <;> rfl

/-- A validated update dispatches exactly one PATCH request. -/
theorem dispatchCalls_update (ad : Adapter) (args : RawArgs) (a : UpdateWorkflowArgs)
    (hv : validateUpdateWorkflow args = .ok a) :
    dispatchCalls ad "update_workflow" args = [updateRequest a] := by
  unfold dispatchCalls
  rw [dispatch_snd, tryBlock_update, hv]
  exact handleUpdateWorkflow_calls ad a

theorem handleCreateWorkflow_calls (ad : Adapter) (a : CreateWorkflowArgs) :
    (handleCreateWorkflow ad a).2 = [createRequest a] := by
  unfold handleCreateWorkflow
  cases ad (createRequest a) <;> rfl

theorem tryBlock_create (ad : Adapter) (args : RawArgs) :
    tryBlock ad "create_workflow" args
      = bindVal (validateCreateWorkflow args) (handleCreateWorkflow ad) := rfl

/-- A validated create dispatches exactly one POST request. -/
theorem dispatchCalls_create (ad : Adapter) (args : RawArgs) (a : CreateWorkflowArgs)
    (hv : validateCreateWorkflow args = .ok a) :
    dispatchCalls ad "create_workflow" args = [createRequest a] := by
  unfold dispatchCalls
  rw [dispatch_snd, tryBlock_create, hv]
  exact handleCreateWorkflow_calls ad a

/-- A rejected create dispatches no request. -/
theorem dispatchCalls_create_err (ad : Adapter) (args : RawArgs) (e : McpError)
    (hv : validateCreateWorkflow args = .error e) :
    dispatchCalls ad "create_workflow" args = [] := by
  unfold dispatchCalls
  rw [dispatch_snd, tryBlock_create, hv]
  rfl

theorem tryBlock_execute (ad : Adapter) (args : RawArgs) :
    tryBlock ad "execute_workflow" args
      = bindVal (validateExecuteWorkflow args) (handleExecuteWorkflow ad) := rfl

theorem handleExecuteWorkflow_calls (ad : Adapter) (a : ExecuteWorkflowArgs) :
    (handleExecuteWorkflow ad a).2 = [executeRequest a] := by
  unfold handleExecuteWorkflow
  cases ad (executeRequest a) <;> rfl

/-- A validated execute dispatches exactly one POST request. -/
theorem dispatchCalls_execute (ad : Adapter) (args : RawArgs) (a : ExecuteWorkflowArgs)
    (hv : validateExecuteWorkflow args = .ok a) :
    dispatchCalls ad "execute_workflow" args = [executeRequest a] := by
  unfold dispatchCalls
  rw [dispatch_snd, tryBlock_execute, hv]
  exact handleExecuteWorkflow_calls ad a

theorem tryBlock_list (ad : Adapter) (args : RawArgs) :
    tryBlock ad "list_workflows" args = handleListWorkflows ad args := rfl

/-- The list handler, once its query parameters are built. -/
theorem handleListWorkflows_eq (ad : Adapter) (args : RawArgs)
    (ps : List (String × JValue)) (hp : listParams args = .ok ps) :
    handleListWorkflows ad args
      = match ad (listRequest ps) with
        | .error e => (.error (.axios e), [listRequest ps])
        | .ok resp =>
          if isHtmlBody resp.data then
            (.ok (textResult htmlDiagnostic), [listRequest ps])
          else
            (.ok (textResult (jsonStringify resp.data)), [listRequest ps]) := by
  unfold handleListWorkflows
  rw [hp]

theorem handleListWorkflows_calls (ad : Adapter) (args : RawArgs)
    (ps : List (String × JValue)) (hp : listParams args = .ok ps) :
    (handleListWorkflows ad args).2 = [listRequest ps] := by
  rw [handleListWorkflows_eq ad args ps hp]
  generalize ad (listRequest ps) = r
  rcases r with e | resp
  · rfl
  · by_cases h : isHtmlBody resp.data = true <;> simp [h]

/-- A list call with well-formed tags dispatches exactly one GET. -/
theorem dispatchCalls_list (ad : Adapter) (args : RawArgs)
    (ps : List (String × JValue)) (hp : listParams args = .ok ps) :
    dispatchCalls ad "list_workflows" args = [listRequest ps] := by
  unfold dispatchCalls
  rw [dispatch_snd, tryBlock_list]
  exact handleListWorkflows_calls ad args ps hp

/-- The id validator rejects every non-string `id`. -/
theorem validateWorkflowId_not_string {args : RawArgs}
    (h : isStringVal (getField args "id") = false) :
    validateWorkflowId args = .error workflowIdError := by
  unfold validateWorkflowId
  cases hg : getField args "id" with
  | none => rfl
  | some v => cases v <;> simp_all [isStringVal]

/-- The update validator rejects every non-string `id`. -/
theorem validateUpdateWorkflow_not_string {args : RawArgs}
    (h : isStringVal (getField args "id") = false) :
    validateUpdateWorkflow args = .error workflowIdError := by
  unfold validateUpdateWorkflow
  cases hg : getField args "id" with
  | none => rfl
  | some v => cases v <;> simp_all [isStringVal]

/-- The execute validator rejects every non-string `id`. -/
theorem validateExecuteWorkflow_not_string {args : RawArgs}
    (h : isStringVal (getField args "id") = false) :
    validateExecuteWorkflow args = .error workflowIdError := by
  unfold validateExecuteWorkflow
  cases hg : getField args "id" with
  | none => rfl
  | some v => cases v <;> simp_all [isStringVal]

/-- A thrown `McpError` inside the try block is the final outcome, and
no further request is issued after it. -/
theorem dispatch_of_tryBlock_mcp (ad : Adapter) (name : String) (args : RawArgs)
    (e : McpError) (h : tryBlock ad name args = (.error (.mcp e), [])) :
    dispatch ad name args = (.error (.mcp e), []) := by
  unfold dispatch
  rw [h]

/-- Serialization of a field the validator filtered with `keepString`. -/
theorem optPair_keepString (k : String) (o : Option JValue) :
    optPair k (keepString o)
      = (match o with | some (.str t) => [(k, JValue.str t)] | _ => []) := by
  cases o with
  | none => rfl
  | some v => cases v <;> rfl

/-- Serialization of a field the validator filtered with `keepArray`. -/
theorem optPair_keepArray (k : String) (o : Option JValue) :
    optPair k (keepArray o)
      = (match o with | some (.arr xs) => [(k, JValue.arr xs)] | _ => []) := by
  cases o with
  | none => rfl
  | some v => cases v <;> rfl

/-- Serialization of a field the validator filtered with `keepBool`. -/
theorem optPair_keepBool (k : String) (o : Option JValue) :
    optPair k (keepBool o)
      = (match o with | some (.bool b) => [(k, JValue.bool b)] | _ => []) := by
  cases o with
  | none => rfl
  | some v => cases v <;> rfl

/-- Serialization of a field the validator filtered with
`keepTypeofObject`: `null`, arrays and objects are all kept. -/
theorem optPair_keepTypeofObject (k : String) (o : Option JValue) :
    optPair k (keepTypeofObject o)
      = (match o with
         | some v => if jsTypeof v = "object" then [(k, v)] else []
         | none => []) := by
  cases o with
  | none => rfl
  | some v => cases v <;> simp [keepTypeofObject, jsTypeof, optPair]

/-! Per-operation try-block equations (the switch at a literal name). -/

theorem tryBlock_get (ad : Adapter) (args : RawArgs) :
    tryBlock ad "get_workflow" args
      = bindVal (validateWorkflowId args) (handleGetWorkflow ad) := rfl

theorem tryBlock_delete (ad : Adapter) (args : RawArgs) :
    tryBlock ad "delete_workflow" args
      = bindVal (validateWorkflowId args) (handleDeleteWorkflow ad) := rfl

theorem tryBlock_activate (ad : Adapter) (args : RawArgs) :
    tryBlock ad "activate_workflow" args
      = bindVal (validateWorkflowId args) (handleActivateWorkflow ad) := rfl

theorem tryBlock_deactivate (ad : Adapter) (args : RawArgs) :
    tryBlock ad "deactivate_workflow" args
      = bindVal (validateWorkflowId args) (handleDeactivateWorkflow ad) := rfl

/-- A create call whose optional payload fields are all absent sends the
fully defaulted request, whatever `active`/`tags` look up to. -/
theorem dispatchCalls_create_default (ad : Adapter) (args : RawArgs) (n : String)
    (hn : n ≠ "")
    (hname : getField args "name" = some (JValue.str n))
    (hnodes : getField args "nodes" = none)
    (hconn : getField args "connections" = none)
    (hset : getField args "settings" = none) :
    dispatchCalls ad "create_workflow" args = [createDefaultRequest n] := by
  have hv : validateCreateWorkflow args = .ok
      { name := n
        nodes := .arr []
        connections := .obj []
        active := match getField args "active" with
                  | some (.bool b) => b
                  | _ => false
        tags := match getField args "tags" with
                | some (.arr xs) => .arr xs
                | _ => .arr []
        settings := .obj [("executionOrder", JValue.str "v1")] } := by
    unfold validateCreateWorkflow
    rw [hname, hnodes, hconn, hset]
    simp [hn]
  rw [dispatchCalls_create ad args _ hv]
  rfl

/-- C1: for every create call whose raw arguments are a string `name`
plus only unrecognized fields — or additionally `tags: ["x"]` and
`active: true` — the dispatcher sends (when the name is accepted)
exactly one POST `/workflows` whose body has exactly the keys `name`,
`nodes` (defaulted to `[]`), `connections` (defaulted to `{}`) and
`settings` (defaulted to `{executionOrder: "v1"}`), with no `active` and
no `tags` key. -/
theorem create_request_drops_active_and_tags (ad : Adapter) (n : String)
    (extra : RawArgs)
    (hextra : List.all createOtherKeys
        (fun k => List.all extra (fun p => !(p.1 == k))) = true) :
    dispatchCalls ad "create_workflow" (("name", JValue.str n) :: extra)
        = (if n = "" then [] else [createDefaultRequest n])
    ∧ dispatchCalls ad "create_workflow"
          (("name", JValue.str n) :: ("tags", JValue.arr [JValue.str "x"])
            :: ("active", JValue.bool true) :: extra)
        = (if n = "" then [] else [createDefaultRequest n]) := by
  simp only [createOtherKeys, List.all_cons, List.all_nil, Bool.and_eq_true,
             and_true] at hextra
  obtain ⟨hno, hco, hac, hta, hse⟩ := hextra
  have gno := getField_eq_none hno
  have gco := getField_eq_none hco
  have gta := getField_eq_none hta
  have gse := getField_eq_none hse
  constructor
  · by_cases hn : n = ""
    · subst hn
      rw [if_pos rfl]
      exact dispatchCalls_create_err ad _ workflowNameError (by
        unfold validateCreateWorkflow
        rw [show getField (("name", JValue.str "") :: extra) "name"
              = some (JValue.str "") from by rw [getField_cons]; rfl]
        rfl)
    · rw [if_neg hn]
      refine dispatchCalls_create_default ad _ n hn ?_ ?_ ?_ ?_
      · rw [getField_cons]; rfl
      · rw [getField_cons]; simpa using gno
      · rw [getField_cons]; simpa using gco
      · rw [getField_cons]; simpa using gse
  · by_cases hn : n = ""
    · subst hn
      rw [if_pos rfl]
      exact dispatchCalls_create_err ad _ workflowNameError (by
        unfold validateCreateWorkflow
        rw [show getField (("name", JValue.str "") :: ("tags", JValue.arr [JValue.str "x"])
              :: ("active", JValue.bool true) :: extra) "name"
              = some (JValue.str "") from by rw [getField_cons]; rfl]
        rfl)
    · rw [if_neg hn]
      refine dispatchCalls_create_default ad _ n hn ?_ ?_ ?_ ?_
      · rw [getField_cons]; rfl
      · rw [getField_cons, getField_cons, getField_cons]; simpa using gno
      · rw [getField_cons, getField_cons, getField_cons]; simpa using gco
      · rw [getField_cons, getField_cons, getField_cons]; simpa using gse

theorem create_request_drops_active_and_tags_witness :
    dispatchCalls okAdapter "create_workflow"
        [("name", JValue.str "wf"), ("tags", JValue.arr [JValue.str "x"]),
         ("active", JValue.bool true)]
      = [createDefaultRequest "wf"] :=
  (create_request_drops_active_and_tags okAdapter "wf" [] (by decide)).2

/-- C2 counterexample: `connections: null` is NOT turned into "absent" —
because `typeof null === "object"`, the validator keeps it and the PATCH
body sent is exactly `{connections: null}`. -/
theorem update_null_connections_kept :
    dispatchCalls okAdapter "update_workflow"
        [("id", JValue.str "5"), ("connections", JValue.null)]
      = [{ method := .PATCH, path := "/workflows/5", params := []
           body := some (JValue.obj [("connections", JValue.null)]) }] := by
  rfl

/-- C2 (amended): for every update call with a valid `id`, the PATCH
body keeps `name` exactly when a string, `nodes`/`tags` exactly when
arrays, `active` exactly when a boolean, and `connections` exactly when
its JavaScript `typeof` is `"object"` — which keeps `null` and arrays
too; every other field value is omitted entirely from the body, never
sent as null or empty. In particular `{id: "5", name: "renamed"}`
produces a PATCH body of exactly `{name: "renamed"}`. -/
theorem update_patch_body (ad : Adapter) (args : RawArgs) (s : String)
    (hid : getField args "id" = some (JValue.str s)) (hs : s ≠ "") :
    dispatchCalls ad "update_workflow" args
        = [{ method := .PATCH, path := "/workflows/" ++ s, params := []
             body := some (.obj (
               (match getField args "name" with
                | some (.str t) => [("name", JValue.str t)]
                | _ => []) ++
               (match getField args "nodes" with
                | some (.arr xs) => [("nodes", JValue.arr xs)]
                | _ => []) ++
               (match getField args "connections" with
                | some v => if jsTypeof v = "object" then [("connections", v)] else []
                | none => []) ++
               (match getField args "active" with
                | some (.bool b) => [("active", JValue.bool b)]
                | _ => []) ++
               (match getField args "tags" with
                | some (.arr xs) => [("tags", JValue.arr xs)]
                | _ => []))) }]
    ∧ dispatchCalls ad "update_workflow"
          [("id", JValue.str "5"), ("name", JValue.str "renamed")]
        = [{ method := .PATCH, path := "/workflows/5", params := []
             body := some (JValue.obj [("name", JValue.str "renamed")]) }] := by
  constructor
  · have hv : validateUpdateWorkflow args = .ok
        { id := s
          name := keepString (getField args "name")
          nodes := keepArray (getField args "nodes")
          connections := keepTypeofObject (getField args "connections")
          active := keepBool (getField args "active")
          tags := keepArray (getField args "tags") } := by
      unfold validateUpdateWorkflow
      rw [hid]
      simp [hs]
    rw [dispatchCalls_update ad args _ hv]
    unfold updateRequest updateBody
    simp only [optPair_keepString, optPair_keepArray, optPair_keepBool,
               optPair_keepTypeofObject]
  · exact dispatchCalls_update ad _
      { id := "5", name := some (JValue.str "renamed"), nodes := none,
        connections := none, active := none, tags := none } rfl

theorem update_patch_body_witness :
    dispatchCalls okAdapter "update_workflow"
        [("id", JValue.str "5"), ("name", JValue.str "renamed")]
      = [{ method := .PATCH, path := "/workflows/5", params := []
           body := some (JValue.obj [("name", JValue.str "renamed")]) }] :=
  (update_patch_body okAdapter
    [("id", JValue.str "5"), ("name", JValue.str "renamed")] "5" rfl
    (by decide)).2

/-- C3 counterexample: `tags: []` is provided but empty, yet the query
parameter `tags` IS included (with value `""`), because an empty array
is truthy in JavaScript. -/
theorem list_empty_tags_param_sent :
    dispatchCalls okAdapter "list_workflows" [("tags", JValue.arr [])]
      = [{ method := .GET, path := "/workflows"
           params := [("tags", JValue.str "")], body := none }] := by
  rfl

/-- C3 (amended): the query parameter `active` is included exactly when
the caller provided `active` (with the provided value), and `tags` is
included exactly when the caller provided a `tags` array — including the
empty array, since arrays are always truthy — with value the
comma-joined string of the provided tags. In particular
`{active: true, tags: ["a","b"]}` yields `active=true&tags=a,b`. -/
theorem list_query_params (ad : Adapter) (aopt : Option JValue)
    (topt : Option (List JValue)) :
    dispatchCalls ad "list_workflows"
        ((match aopt with | some v => [("active", v)] | none => []) ++
         (match topt with | some l => [("tags", JValue.arr l)] | none => []))
      = [{ method := .GET, path := "/workflows"
           params :=
             (match aopt with | some v => [("active", v)] | none => []) ++
             (match topt with
              | some l => [("tags", JValue.str (jsJoinComma l))]
              | none => [])
           body := none }]
    ∧ dispatchCalls ad "list_workflows"
        [("active", JValue.bool true),
         ("tags", JValue.arr [JValue.str "a", JValue.str "b"])]
      = [{ method := .GET, path := "/workflows"
           params := [("active", JValue.bool true), ("tags", JValue.str "a,b")]
           body := none }] := by
  constructor
  · rcases aopt with _ | v <;> rcases topt with _ | l
    · exact dispatchCalls_list ad _ [] rfl
    · exact dispatchCalls_list ad _ [("tags", JValue.str (jsJoinComma l))] rfl
    · exact dispatchCalls_list ad _ [("active", v)] rfl
    · exact dispatchCalls_list ad _
        [("active", v), ("tags", JValue.str (jsJoinComma l))] rfl
  · exact dispatchCalls_list ad _
      [("active", JValue.bool true), ("tags", JValue.str "a,b")] rfl

/-- C4 counterexample: execute with `data: ["x"]` — an array, hence not
a mapping — does not get the empty-mapping default: `typeof` of an array
is `"object"`, so the validator keeps it and the POST body is the array
itself. -/
theorem execute_array_data_sent :
    dispatchCalls okAdapter "execute_workflow"
        [("id", JValue.str "1"), ("data", JValue.arr [JValue.str "x"])]
      = [{ method := .POST, path := "/workflows/1/execute", params := []
           body := some (JValue.arr [JValue.str "x"]) }] := by
  rfl

/-- C4 (amended): the validator sets `data` to the input exactly when
the input's JavaScript `typeof` is `"object"` — which keeps `null` and
arrays as well as mappings — and to `{}` otherwise; the POST body is the
validated `data` when truthy and `{}` otherwise (so a kept `null`
becomes `{}` in the body, while a kept array is sent as-is). -/
theorem execute_request_body (ad : Adapter) (s : String) (hs : s ≠ "")
    (dopt : Option JValue) :
    dispatchCalls ad "execute_workflow"
        (("id", JValue.str s) ::
          (match dopt with | some v => [("data", v)] | none => []))
      = [{ method := .POST, path := "/workflows/" ++ s ++ "/execute"
           params := []
           body := some (jsOr
             (match dopt with
              | some v => if jsTypeof v = "object" then v else JValue.obj []
              | none => JValue.obj [])
             (JValue.obj [])) }] := by
  rcases dopt with _ | v
  · have hv : validateExecuteWorkflow [("id", JValue.str s)]
        = .ok { id := s, data := JValue.obj [] } := by
      unfold validateExecuteWorkflow
      rw [show getField [("id", JValue.str s)] "id" = some (JValue.str s) from rfl]
      rw [show getField [("id", JValue.str s)] "data" = none from rfl]
      simp [hs]
    exact dispatchCalls_execute ad _ _ hv
  · have hv : validateExecuteWorkflow [("id", JValue.str s), ("data", v)]
        = .ok { id := s
                data := if jsTypeof v = "object" then v else JValue.obj [] } := by
      unfold validateExecuteWorkflow
      rw [show getField [("id", JValue.str s), ("data", v)] "id"
            = some (JValue.str s) from rfl]
      rw [show getField [("id", JValue.str s), ("data", v)] "data"
            = some v from rfl]
      simp [hs]
    exact dispatchCalls_execute ad _ _ hv

theorem execute_request_body_witness :
    dispatchCalls okAdapter "execute_workflow"
        [("id", JValue.str "9"), ("data", JValue.obj [("k", JValue.str "v")])]
      = [{ method := .POST, path := "/workflows/9/execute", params := []
           body := some (JValue.obj [("k", JValue.str "v")]) }] :=
  execute_request_body okAdapter "9" (by decide)
    (some (JValue.obj [("k", JValue.str "v")]))

/-- C5: every `AxiosError` thrown inside the try block is caught at the
dispatcher boundary and rethrown as `InternalError` with message
`"n8n API error: {message}"` where the message comes from the error
body's `message` field when present (else the adapter's own message);
every `McpError` and every other exception propagates unchanged. A
downstream failure with body `{message: "rate limited"}` surfaces as an
`InternalError` whose message contains `"rate limited"`. -/
theorem api_error_translation (ad : Adapter) (name : String) (args : RawArgs) :
    (∀ e : AdapterError, (tryBlock ad name args).1 = .error (.axios e) →
        dispatchResult ad name args
          = .error (.mcp { code := .InternalError
                           message := "n8n API error: " ++ axiosMessage e }))
    ∧ (∀ e : McpError, (tryBlock ad name args).1 = .error (.mcp e) →
        dispatchResult ad name args = .error (.mcp e))
    ∧ (∀ m : String, (tryBlock ad name args).1 = .error (.js m) →
        dispatchResult ad name args = .error (.js m))
    ∧ (∀ r : CallResult, (tryBlock ad name args).1 = .ok r →
        dispatchResult ad name args = .ok r)
    ∧ dispatchResult rateLimitedAdapter "get_workflow" [("id", JValue.str "7")]
        = .error (.mcp { code := .InternalError
                         message := "n8n API error: rate limited" })
    ∧ stringIncludes "n8n API error: rate limited" "rate limited" = true := by
  refine ⟨?_, ?_, ?_, ?_, rfl, rfl⟩ <;> intro x hx <;> rw [dispatch_fst, hx]

theorem api_error_translation_witness :
    dispatchResult rateLimitedAdapter "get_workflow" [("id", JValue.str "7")]
      = .error (.mcp { code := .InternalError
                       message := "n8n API error: " ++ axiosMessage rateLimitedError }) :=
  (api_error_translation rateLimitedAdapter "get_workflow"
    [("id", JValue.str "7")]).1 rateLimitedError rfl

/-- C6: every id-requiring operation invoked with a missing or
non-string `id` yields `InvalidParams` with the fixed message and issues
no HTTP request at all. -/
theorem id_required_rejects (ad : Adapter) (name : String) (args : RawArgs)
    (hname : name ∈ idRequiredOps)
    (hid : isStringVal (getField args "id") = false) :
    dispatch ad name args = (.error (.mcp workflowIdError), []) := by
  have h1 := validateWorkflowId_not_string hid
  have h2 := validateUpdateWorkflow_not_string hid
  have h3 := validateExecuteWorkflow_not_string hid
  simp only [idRequiredOps, List.mem_cons, List.not_mem_nil, or_false] at hname
  rcases hname with rfl | rfl | rfl | rfl | rfl | rfl
  · exact dispatch_of_tryBlock_mcp ad _ args _ (by rw [tryBlock_get ad args, h1]; rfl)
  · exact dispatch_of_tryBlock_mcp ad _ args _ (by rw [tryBlock_update ad args, h2]; rfl)
  · exact dispatch_of_tryBlock_mcp ad _ args _ (by rw [tryBlock_delete ad args, h1]; rfl)
  · exact dispatch_of_tryBlock_mcp ad _ args _ (by rw [tryBlock_activate ad args, h1]; rfl)
  · exact dispatch_of_tryBlock_mcp ad _ args _ (by rw [tryBlock_deactivate ad args, h1]; rfl)
  · exact dispatch_of_tryBlock_mcp ad _ args _ (by rw [tryBlock_execute ad args, h3]; rfl)

theorem id_required_rejects_witness :
    dispatch okAdapter "get_workflow" [("id", JValue.num 7)]
      = (.error (.mcp workflowIdError), []) :=
  id_required_rejects okAdapter "get_workflow" [("id", JValue.num 7)]
    (by decide) rfl

/-- C7: an operation name matching none of the eight catalog names
yields `MethodNotFound` with the requested name embedded in the message,
and no HTTP request is issued. -/
theorem unknown_tool_method_not_found (ad : Adapter) (name : String)
    (args : RawArgs) (h : name ∉ catalogNames) :
    dispatch ad name args
      = (.error (.mcp { code := .MethodNotFound
                        message := "Unknown tool: " ++ name }), []) := by
  simp only [catalogNames, List.mem_cons, List.not_mem_nil, or_false,
             not_or] at h
  obtain ⟨h1, h2, h3, h4, h5, h6, h7, h8⟩ := h
  apply dispatch_of_tryBlock_mcp
  unfold tryBlock
  simp [h1, h2, h3, h4, h5, h6, h7, h8]

theorem unknown_tool_method_not_found_witness :
    dispatch okAdapter "frobnicate" []
      = (.error (.mcp { code := .MethodNotFound
                        message := "Unknown tool: frobnicate" }), []) :=
  unknown_tool_method_not_found okAdapter "frobnicate" [] (by decide)

/-- C8: a list call whose response body is a string containing the
literal `<!DOCTYPE html>` marker produces the single diagnostic text
block pointing at the base-URL configuration; any other response body is
pretty-printed as JSON in a single text block. -/
theorem list_html_guard (args : RawArgs) (ps : List (String × JValue))
    (resp : HttpResponse) (hp : listParams args = .ok ps) :
    (isHtmlBody resp.data = true →
        dispatchResult (constAdapter resp) "list_workflows" args
          = .ok (textResult htmlDiagnostic))
    ∧ (isHtmlBody resp.data = false →
        dispatchResult (constAdapter resp) "list_workflows" args
          = .ok (textResult (jsonStringify resp.data))) := by
  have he := handleListWorkflows_eq (constAdapter resp) args ps hp
  constructor <;> intro h <;>
    rw [dispatch_fst, tryBlock_list, he] <;>
    simp [constAdapter, h]

theorem list_html_guard_witness :
    dispatchResult
        (constAdapter { status := 200
                        data := JValue.str "<!DOCTYPE html><html>...</html>" })
        "list_workflows" []
      = .ok (textResult htmlDiagnostic) :=
  (list_html_guard [] []
    { status := 200, data := JValue.str "<!DOCTYPE html><html>...</html>" }
    rfl).1 rfl

/-- C9: a delete call with a valid id returns, in a single text block,
exactly `"Workflow {id} deleted successfully"` when the response body is
falsy, and the body pretty-printed as JSON otherwise. -/
theorem delete_fallback_text (s : String) (hs : s ≠ "") (resp : HttpResponse) :
    dispatchResult (constAdapter resp) "delete_workflow" [("id", JValue.str s)]
      = .ok (textResult (if truthy resp.data then jsonStringify resp.data
                          else "Workflow " ++ s ++ " deleted successfully")) := by
  have hv : validateWorkflowId [("id", JValue.str s)] = .ok { id := s } := by
    unfold validateWorkflowId
    rw [show getField [("id", JValue.str s)] "id" = some (JValue.str s) from rfl]
    simp [hs]
  rw [dispatch_fst, tryBlock_delete, hv]
  unfold bindVal handleDeleteWorkflow constAdapter
  cases ht : truthy resp.data <;> simp [ht]

theorem delete_fallback_text_witness :
    dispatchResult (constAdapter { status := 200, data := JValue.str "" })
        "delete_workflow" [("id", JValue.str "5")]
      = .ok (textResult "Workflow 5 deleted successfully") :=
  delete_fallback_text "5" (by decide) { status := 200, data := JValue.str "" }

/-- C10: the required-field checks are truthiness-based, so the empty
string — present and a string — is still rejected: every id-requiring
operation rejects `id: ""` with `InvalidParams`, and create rejects
`name: ""` likewise; no HTTP request is issued. -/
theorem empty_string_required_fields_rejected (ad : Adapter) :
    dispatch ad "get_workflow" [("id", JValue.str "")]
        = (.error (.mcp workflowIdError), [])
    ∧ dispatch ad "update_workflow" [("id", JValue.str "")]
        = (.error (.mcp workflowIdError), [])
    ∧ dispatch ad "delete_workflow" [("id", JValue.str "")]
        = (.error (.mcp workflowIdError), [])
    ∧ dispatch ad "activate_workflow" [("id", JValue.str "")]
        = (.error (.mcp workflowIdError), [])
    ∧ dispatch ad "deactivate_workflow" [("id", JValue.str "")]
        = (.error (.mcp workflowIdError), [])
    ∧ dispatch ad "execute_workflow" [("id", JValue.str "")]
        = (.error (.mcp workflowIdError), [])
    ∧ dispatch ad "create_workflow" [("name", JValue.str "")]
        = (.error (.mcp workflowNameError), []) :=
  ⟨rfl, rfl, rfl, rfl, rfl, rfl, rfl⟩

end N8n
